import Mathlib

/-!
Shallow embedding of the CMakeTemplate repository.

The repository holds two unrelated executables:

* the Arithmetic Self-Check (`src/Basic/test/test_main.cpp`): two pure
  helper functions `add` and `multiply` on C `int`, a literal-string
  check, and a GoogleTest entry point;
* the Diagnostic Reporter (`src/@small/src/main.cpp`): a single `main`
  that prints compiler identity, the language standard, the build mode,
  primitive-type bit widths, and a fixed set of build-time definitions.

C `int` is modelled as a mathematical integer reduced two's-complement
style into the 32-bit range, so that overflow behaviour is explicit.
The preprocessor state of the Diagnostic Reporter is modelled as an
explicit record of the macros the translation unit consults; the
program's observable behaviour (stdout lines and exit code) is a pure
function of that record, returning `none` when the translation unit
does not compile because a required macro is absent.
-/

/-- Minimum value representable in a 32-bit C `int`. -/
def intMin : Int := -2147483648

/-- Maximum value representable in a 32-bit C `int`. -/
def intMax : Int := 2147483647

/-- An integer is representable as a 32-bit C `int`. -/
def reprInt (x : Int) : Prop := intMin ≤ x ∧ x ≤ intMax

instance (x : Int) : Decidable (reprInt x) := by
  unfold reprInt
  infer_instance

/-- Two's-complement reduction of an integer into the 32-bit `int` range,
the usual machine behaviour of `int` arithmetic that leaves the range. -/
def wrap32 (x : Int) : Int := (x + 2147483648) % 4294967296 - 2147483648

/-- `int add(int a, int b) { return a + b; }` from
`src/Basic/test/test_main.cpp`, with `int` arithmetic reduced into the
32-bit range. -/
def add (a b : Int) : Int := wrap32 (a + b)

/-- `int multiply(int a, int b) { return a * b; }` from
`src/Basic/test/test_main.cpp`, with `int` arithmetic reduced into the
32-bit range. -/
def multiply (a b : Int) : Int := wrap32 (a * b)

/-- On arguments already inside the `int` range the reduction is the
identity. -/
theorem wrap32_eq_self {x : Int} (h1 : intMin ≤ x) (h2 : x ≤ intMax) :
    wrap32 x = x := by
  unfold wrap32
  unfold intMin at h1
  unfold intMax at h2
  omega

/-- The literal `std::string str = "Hello, World!"` of the string test. -/
def strLiteral : String := "Hello, World!"

/-- `std::string::npos`, the not-found sentinel: the largest `size_t`
value on a 64-bit platform. -/
def npos : Nat := 18446744073709551615

/-- `std::string::find(substring)`: the smallest index at which the
substring occurs, or `npos` when it occurs nowhere. -/
def strFind (s sub : String) : Nat :=
  match (List.range (s.length + 1)).find?
      (fun i => sub.toList.isPrefixOf (s.toList.drop i)) with
  | some i => i
  | none => npos

/-- The battery of assertions registered in `src/Basic/test/test_main.cpp`:
`BasicTest.Addition`, `BasicTest.Multiplication` and
`StringTest.BasicStringOperations`, in source order. -/
def testAssertions : List Bool :=
  [add 2 3 == 5, add (-1) 1 == 0, add 0 0 == 0,
   multiply 2 3 == 6, multiply (-2) 3 == -6, multiply 0 100 == 0,
   strLiteral.length == 13, strFind strLiteral "World" != npos]

/-- Modelled from the spec: GoogleTest's `RUN_ALL_TESTS` (third-party
code, not under `src/`) "executes all registered cases, and returns a
process exit code equal to the count of failed assertions (0 = all
passed)". -/
def runAllTests (checks : List Bool) : Nat :=
  (checks.filter (fun b => !b)).length

/-- The value returned by `main` of the Arithmetic Self-Check:
`RUN_ALL_TESTS()` over the registered assertions. -/
def testMainExit : Nat := runAllTests testAssertions

/-- The preprocessor state `src/@small/src/main.cpp` consults: which
macros are defined, with their values, plus the `sizeof` results of the
build platform. `none` means the macro is not defined. -/
structure CompileEnv where
  clangVer : Option (Nat × Nat × Nat)
  gnucVer : Option (Nat × Nat × Nat)
  cplusplus : Int
  debugDefined : Bool
  ndebugDefined : Bool
  projectName : Option String
  projectVersion : Option String
  oneDef : Option String
  twoDef : Option String
  threeDef : Option String
  mainFileDef : Option String
  msg1 : Option String
  msg2 : Option String
  sizeofCharPtr : Nat
  sizeofInt : Nat
  sizeofLong : Nat
  sizeofFloat : Nat
  sizeofDouble : Nat

/-- The translation unit compiles: every macro used unconditionally in
lines 54-65 of `src/@small/src/main.cpp` is defined. -/
def compiles (e : CompileEnv) : Bool :=
  e.projectName.isSome && e.projectVersion.isSome && e.oneDef.isSome &&
  e.twoDef.isSome && e.threeDef.isSome && e.mainFileDef.isSome &&
  e.msg1.isSome && e.msg2.isSome

/-- Lines 6-9: the project name/version line, guarded by
`#if defined(PROJECT_NAME) && defined(PROJECT_VERSION)`. -/
def projectLines (e : CompileEnv) : List String :=
  match e.projectName, e.projectVersion with
  | some n, some v =>
      ["Project Name is " ++ n ++ " and Project Version is " ++ v]
  | _, _ => []

/-- A compiler version line `Version: a.b.c`. -/
def verLine (a b c : Nat) : String := s!"Version: {a}.{b}.{c}"

/-- Lines 11-21: compiler detection, `__clang__` checked before
`__GNUC__`, with a fallback line for an unknown compiler. -/
def compilerLines (e : CompileEnv) : List String :=
  match e.clangVer with
  | some (a, b, c) => ["Compiler: Clang", verLine a b c]
  | none =>
    match e.gnucVer with
    | some (a, b, c) => ["Compiler: GCC", verLine a b c]
    | none => ["Unknown compiler"]

/-- Lines 24-36: the language-standard line chosen by exact match of
`__cplusplus` against the five standard tokens. -/
def cppStdLine (v : Int) : String :=
  if v == 199711 then "C++98/03"
  else if v == 201103 then "C++11"
  else if v == 201402 then "C++14"
  else if v == 201703 then "C++17"
  else if v == 202002 then "C++20"
  else "Newer C++ version or unknown"

/-- Lines 39-45: the build-mode line, `#ifdef _DEBUG` first, then
`#elif defined(NDEBUG)`, else the no-NDEBUG debug default. -/
def buildModeLine (debugDefined ndebugDefined : Bool) : String :=
  if debugDefined then "Debug mode (_DEBUG is defined)"
  else if ndebugDefined then "Release mode (NDEBUG is defined)"
  else "Debug mode (NDEBUG is not defined)"

/-- A primitive-type size line `Size of t: n bits`. -/
def bitLine (t : String) (n : Nat) : String := s!"Size of {t}: {n} bits"

/-- Lines 48-52: the five primitive-type bit widths, each computed as
`sizeof(T) * 8`. -/
def sizeLines (e : CompileEnv) : List String :=
  [bitLine "char *" (e.sizeofCharPtr * 8),
   bitLine "int" (e.sizeofInt * 8),
   bitLine "long" (e.sizeofLong * 8),
   bitLine "float" (e.sizeofFloat * 8),
   bitLine "double" (e.sizeofDouble * 8)]

/-- Lines 54-59: the unconditional echo of the
`target_compile_definitions` values. -/
def defsLines (n v o t th : String) : List String :=
  ["", "target_compile_definitions:",
   "Project Name: " ++ n, "Project Version: " ++ v,
   "ONE_ = " ++ o, "TWO = " ++ t, "THREE = " ++ th]

/-- Lines 61-65: the unconditional echo of the
`set_source_files_properties` values. -/
def srcPropsLines (mf m1 m2 : String) : List String :=
  ["", "set_source_files_properties:", "main.cpp PROPERTIES ",
   "MAIN_FILE_=\"" ++ mf ++ "\" ", "MSG1=\"" ++ m1 ++ "\" ",
   "MSG2=\"" ++ m2 ++ "\" ", ""]

/-- The observable behaviour of the Diagnostic Reporter: the stdout
lines and the exit code, or `none` when a macro used unconditionally is
absent and the translation unit does not compile. -/
def mainOutput (e : CompileEnv) : Option (List String × Int) :=
  match e.projectName, e.projectVersion, e.oneDef, e.twoDef, e.threeDef,
      e.mainFileDef, e.msg1, e.msg2 with
  | some n, some v, some o, some t, some th, some mf, some m1, some m2 =>
      some (["Hello, World!", "Information from CMake:"] ++
        projectLines e ++ compilerLines e ++
        [cppStdLine e.cplusplus,
         buildModeLine e.debugDefined e.ndebugDefined] ++
        sizeLines e ++ defsLines n v o t th ++ srcPropsLines mf m1 m2, 0)
  | _, _, _, _, _, _, _, _ => none

/-- A fully configured build environment: Clang 13, C++17, NDEBUG, the
LP64 data model, all eight definitions supplied. -/
def sampleEnv : CompileEnv :=
  ⟨none, some (13, 2, 0), 201703, false, true,
   some "CMakeTemplate", some "1.0.0", some "1", some "2", some "3",
   some "main.cpp", some "hello", some "world", 8, 4, 8, 4, 8⟩

/-- `sampleEnv` with the `ONE_` definition removed. -/
def envMissingOne : CompileEnv :=
  ⟨none, some (13, 2, 0), 201703, false, true,
   some "CMakeTemplate", some "1.0.0", none, some "2", some "3",
   some "main.cpp", some "hello", some "world", 8, 4, 8, 4, 8⟩

/-- The compiler-detection block always emits one of the three family
lines. -/
theorem compilerLines_family (e : CompileEnv) :
    "Compiler: Clang" ∈ compilerLines e ∨
    "Compiler: GCC" ∈ compilerLines e ∨
    "Unknown compiler" ∈ compilerLines e := by
  unfold compilerLines
  rcases e.clangVer with _ | ⟨a, b, c⟩
  · rcases e.gnucVer with _ | ⟨a, b, c⟩ <;> simp
  · simp

/-- Claim C1 fails as stated: at a = 2147483647 (INT_MAX) and b = 1,
both representable `int` values, `add` does not return the mathematical
sum 2147483648 but the wrapped value -2147483648. -/
theorem add_claim_counterexample :
    reprInt 2147483647 ∧ reprInt 1 ∧
    add 2147483647 1 ≠ 2147483647 + 1 ∧
    add 2147483647 1 = -2147483648 := by
  refine ⟨by decide, by decide, by decide, by decide⟩

/-- Claim C1 (amended): for every pair of representable `int` values a
and b whose mathematical sum is itself representable, add(a,b) returns
a+b; in particular add(2,3)=5, add(-1,1)=0 and add(0,0)=0. -/
theorem add_eq_sum_of_reprInt (a b : Int) (_ha : reprInt a)
    (_hb : reprInt b) (hs : reprInt (a + b)) :
    add a b = a + b ∧ add 2 3 = 5 ∧ add (-1) 1 = 0 ∧ add 0 0 = 0 :=
  ⟨wrap32_eq_self hs.1 hs.2, by decide, by decide, by decide⟩

/-- Instantiation of the amended claim C1 at a = 2, b = 3. -/
theorem add_eq_sum_witness :
    reprInt 2 ∧ reprInt 3 ∧ reprInt (2 + 3) ∧ (add 2 3 = 2 + 3) :=
  ⟨by decide, by decide, by decide,
   (add_eq_sum_of_reprInt 2 3 (by decide) (by decide) (by decide)).1⟩

/-- Claim C2 fails as stated: at a = 1073741824 (2 to the 30th) and
b = 4, both representable `int` values, `multiply` does not return the
mathematical product 4294967296 but the wrapped value 0. -/
theorem multiply_claim_counterexample :
    reprInt 1073741824 ∧ reprInt 4 ∧
    multiply 1073741824 4 ≠ 1073741824 * 4 ∧
    multiply 1073741824 4 = 0 := by
  refine ⟨by decide, by decide, by decide, by decide⟩

/-- Claim C2 (amended): for every pair of representable `int` values a
and b whose mathematical product is itself representable, multiply(a,b)
returns a*b; in particular multiply(2,3)=6, multiply(-2,3)=-6 and
multiply(0,100)=0. -/
theorem multiply_eq_prod_of_reprInt (a b : Int) (_ha : reprInt a)
    (_hb : reprInt b) (hp : reprInt (a * b)) :
    multiply a b = a * b ∧ multiply 2 3 = 6 ∧ multiply (-2) 3 = -6 ∧
    multiply 0 100 = 0 :=
  ⟨wrap32_eq_self hp.1 hp.2, by decide, by decide, by decide⟩

/-- Instantiation of the amended claim C2 at a = 2, b = 3. -/
theorem multiply_eq_prod_witness :
    reprInt 2 ∧ reprInt 3 ∧ reprInt (2 * 3) ∧ (multiply 2 3 = 2 * 3) :=
  ⟨by decide, by decide, by decide,
   (multiply_eq_prod_of_reprInt 2 3 (by decide) (by decide) (by decide)).1⟩

/-- Claim C3: the Arithmetic Self-Check entry point returns the number
of failed assertions as its exit code: on the registered battery every
assertion passes and the exit code is 0, and in general the modelled
test runner returns 0 exactly when every assertion passes, so any other
outcome is the positive count of failures. -/
theorem testMainExit_counts_failures :
    testMainExit = 0 ∧
    ∀ checks : List Bool,
      (runAllTests checks = 0 ↔ checks.all id = true) := by
  constructor
  · decide
  · intro checks
    simp [runAllTests, List.all_eq_true, List.length_eq_zero,
      List.filter_eq_nil_iff]

/-- Claim C9: the literal "Hello, World!" has length 13 and searching
it for "World" yields a position (namely 7) distinct from the
not-found sentinel npos. -/
theorem helloWorld_length_and_find :
    strLiteral.length = 13 ∧ strFind strLiteral "World" ≠ npos ∧
    strFind strLiteral "World" = 7 := by
  refine ⟨rfl, by decide, by decide⟩

/-- Claim C4 fails as stated: in a configuration where only the ONE_
definition is absent, the translation unit does not compile at all, so
the absence is not handled by silently omitting an output feature. -/
theorem absent_def_not_silent :
    envMissingOne.oneDef = none ∧ mainOutput envMissingOne = none ∧
    compiles envMissingOne = false := ⟨rfl, rfl, rfl⟩

/-- Claim C4 (amended): only the project name/version line of lines 6-9
is conditionally omitted when its two guards are absent; every one of
the eight definitions is also used unconditionally in lines 54-65, so
the Reporter compiles and runs exactly when all eight are present, an
absent definition is a compile-time error rather than a silent
omission, and whenever the Reporter does run it exits 0, so absence
never produces a runtime failure. -/
theorem mainOutput_isSome_eq_compiles (e : CompileEnv) :
    (mainOutput e).isSome = compiles e ∧
    Option.map Prod.snd (mainOutput e) =
      (if compiles e then some 0 else none) ∧
    (projectLines e).length =
      (if e.projectName.isSome && e.projectVersion.isSome then 1
       else 0) := by
  rcases e with
    ⟨cl, gn, cp, d, nd, pn, pv, o1, t2, t3, mf, m1, m2, s1, s2, s3, s4, s5⟩
  cases pn <;> cases pv <;> cases o1 <;> cases t2 <;> cases t3 <;>
    cases mf <;> cases m1 <;> cases m2 <;>
    simp [mainOutput, compiles, projectLines]

/-- Claim C5: every compiling configuration of the Diagnostic Reporter
exits 0, and its output has at least one line for the compiler family,
one for the language-standard edition, one for the build mode, and one
for each of the five primitive-type sizes. -/
theorem mainOutput_reports_all_sections (e : CompileEnv)
    (h : compiles e = true) :
    ∃ lines, mainOutput e = some (lines, 0) ∧
      ("Compiler: Clang" ∈ lines ∨ "Compiler: GCC" ∈ lines ∨
        "Unknown compiler" ∈ lines) ∧
      cppStdLine e.cplusplus ∈ lines ∧
      buildModeLine e.debugDefined e.ndebugDefined ∈ lines ∧
      bitLine "char *" (e.sizeofCharPtr * 8) ∈ lines ∧
      bitLine "int" (e.sizeofInt * 8) ∈ lines ∧
      bitLine "long" (e.sizeofLong * 8) ∈ lines ∧
      bitLine "float" (e.sizeofFloat * 8) ∈ lines ∧
      bitLine "double" (e.sizeofDouble * 8) ∈ lines := by
  simp only [compiles, Bool.and_eq_true, Option.isSome_iff_exists] at h
  obtain ⟨⟨⟨⟨⟨⟨⟨⟨n, hn⟩, v, hv⟩, o, ho⟩, t, ht⟩, th, hth⟩, mf, hmf⟩,
    a, ha⟩, b, hb⟩ := h
  have key : mainOutput e = some
      (["Hello, World!", "Information from CMake:"] ++ projectLines e ++
        compilerLines e ++
        [cppStdLine e.cplusplus,
         buildModeLine e.debugDefined e.ndebugDefined] ++
        sizeLines e ++ defsLines n v o t th ++ srcPropsLines mf a b,
       0) := by
    simp [mainOutput, hn, hv, ho, ht, hth, hmf, ha, hb]
  refine ⟨_, key, ?_, ?_, ?_, ?_, ?_, ?_, ?_, ?_⟩
  · rcases compilerLines_family e with hc | hc | hc
    · exact Or.inl (by simp [List.mem_append, hc])
    · exact Or.inr (Or.inl (by simp [List.mem_append, hc]))
    · exact Or.inr (Or.inr (by simp [List.mem_append, hc]))
  · simp [List.mem_append]
  · simp [List.mem_append]
  · simp [List.mem_append, sizeLines]
  · simp [List.mem_append, sizeLines]
  · simp [List.mem_append, sizeLines]
  · simp [List.mem_append, sizeLines]
  · simp [List.mem_append, sizeLines]

/-- Instantiation of claim C5 at the concrete environment sampleEnv. -/
theorem mainOutput_reports_all_sections_witness :
    compiles sampleEnv = true ∧
    (∃ lines, mainOutput sampleEnv = some (lines, 0) ∧
      ("Compiler: Clang" ∈ lines ∨ "Compiler: GCC" ∈ lines ∨
        "Unknown compiler" ∈ lines) ∧
      cppStdLine sampleEnv.cplusplus ∈ lines ∧
      buildModeLine sampleEnv.debugDefined sampleEnv.ndebugDefined ∈
        lines ∧
      bitLine "char *" (sampleEnv.sizeofCharPtr * 8) ∈ lines ∧
      bitLine "int" (sampleEnv.sizeofInt * 8) ∈ lines ∧
      bitLine "long" (sampleEnv.sizeofLong * 8) ∈ lines ∧
      bitLine "float" (sampleEnv.sizeofFloat * 8) ∈ lines ∧
      bitLine "double" (sampleEnv.sizeofDouble * 8) ∈ lines) :=
  ⟨rfl, mainOutput_reports_all_sections sampleEnv rfl⟩

/-- Claim C6: language-standard detection is an exact match of
__cplusplus against the five standard tokens, and any other value is
reported by the fallback line, which says "unknown". -/
theorem cppStdLine_detection :
    cppStdLine 199711 = "C++98/03" ∧ cppStdLine 201103 = "C++11" ∧
    cppStdLine 201402 = "C++14" ∧ cppStdLine 201703 = "C++17" ∧
    cppStdLine 202002 = "C++20" ∧
    ∀ v : Int,
      v ∉ ([199711, 201103, 201402, 201703, 202002] : List Int) →
        cppStdLine v = "Newer C++ version or unknown" ∧
        "unknown".toList <:+: (cppStdLine v).toList := by
  refine ⟨rfl, rfl, rfl, rfl, rfl, ?_⟩
  intro v hv
  simp only [List.mem_cons, List.not_mem_nil, or_false, not_or] at hv
  obtain ⟨h1, h2, h3, h4, h5⟩ := hv
  have hline : cppStdLine v = "Newer C++ version or unknown" := by
    simp [cppStdLine, h1, h2, h3, h4, h5]
  refine ⟨hline, ?_⟩
  rw [hline]
  decide

/-- Instantiation of claim C6 at the unmatched token 202302 (C++23). -/
theorem cppStdLine_detection_witness :
    (202302 : Int) ∉
      ([199711, 201103, 201402, 201703, 202002] : List Int) ∧
    (cppStdLine 202302 = "Newer C++ version or unknown" ∧
      "unknown".toList <:+: (cppStdLine 202302).toList) :=
  ⟨by decide, cppStdLine_detection.2.2.2.2.2 202302 (by decide)⟩

/-- Claim C7: with both _DEBUG and NDEBUG defined the Reporter reports
debug mode; indeed whenever _DEBUG is defined the debug line wins,
whatever NDEBUG is. -/
theorem buildMode_debug_precedence :
    buildModeLine true true = "Debug mode (_DEBUG is defined)" ∧
    ∀ ndebugDefined : Bool,
      buildModeLine true ndebugDefined =
        "Debug mode (_DEBUG is defined)" :=
  ⟨rfl, fun _ => rfl⟩

/-- Claim C8: in every compiling configuration, the bit width printed
for each of the five primitive types is sizeof(T) * 8 for that type on
the build platform. -/
theorem bitWidths_are_sizeof_times_eight (e : CompileEnv)
    (h : compiles e = true) :
    ∃ lines z, mainOutput e = some (lines, z) ∧
      sizeLines e =
        [bitLine "char *" (e.sizeofCharPtr * 8),
         bitLine "int" (e.sizeofInt * 8),
         bitLine "long" (e.sizeofLong * 8),
         bitLine "float" (e.sizeofFloat * 8),
         bitLine "double" (e.sizeofDouble * 8)] ∧
      ∀ l ∈ sizeLines e, l ∈ lines := by
  simp only [compiles, Bool.and_eq_true, Option.isSome_iff_exists] at h
  obtain ⟨⟨⟨⟨⟨⟨⟨⟨n, hn⟩, v, hv⟩, o, ho⟩, t, ht⟩, th, hth⟩, mf, hmf⟩,
    a, ha⟩, b, hb⟩ := h
  have key : mainOutput e = some
      (["Hello, World!", "Information from CMake:"] ++ projectLines e ++
        compilerLines e ++
        [cppStdLine e.cplusplus,
         buildModeLine e.debugDefined e.ndebugDefined] ++
        sizeLines e ++ defsLines n v o t th ++ srcPropsLines mf a b,
       0) := by
    simp [mainOutput, hn, hv, ho, ht, hth, hmf, ha, hb]
  refine ⟨_, _, key, rfl, ?_⟩
  intro l hl
  simp only [List.mem_append]
  tauto

/-- Instantiation of claim C8 at the concrete environment sampleEnv. -/
theorem bitWidths_are_sizeof_times_eight_witness :
    compiles sampleEnv = true ∧
    (∃ lines z, mainOutput sampleEnv = some (lines, z) ∧
      sizeLines sampleEnv =
        [bitLine "char *" (sampleEnv.sizeofCharPtr * 8),
         bitLine "int" (sampleEnv.sizeofInt * 8),
         bitLine "long" (sampleEnv.sizeofLong * 8),
         bitLine "float" (sampleEnv.sizeofFloat * 8),
         bitLine "double" (sampleEnv.sizeofDouble * 8)] ∧
      ∀ l ∈ sizeLines sampleEnv, l ∈ lines) :=
  ⟨rfl, bitWidths_are_sizeof_times_eight sampleEnv rfl⟩

/-- Claim C10: with neither _DEBUG nor NDEBUG defined the Reporter
reports debug mode with the line "Debug mode (NDEBUG is not defined)":
debug is the default build mode, not an error case. -/
theorem buildMode_default_is_debug :
    buildModeLine false false = "Debug mode (NDEBUG is not defined)" :=
  rfl
